import Mathlib

/-!
# Shallow embedding of the Unscented Kalman Filter core (`src/ukf.cpp`)

The single source file implements class `UKF` with a constructor fixing the
tuning constants and the sigma-point weights, a top-level
`ProcessMeasurement` step, a `Prediction` step (augmented sigma points,
Cholesky-style matrix square root, nonlinear CTRV propagation, recombination),
and two measurement updates `UpdateLidar` (linear) and `UpdateRadar`
(sigma-point based).

Machine `double` arithmetic is modelled by exact real arithmetic `ℝ`.
Eigen's dynamically sized vectors and matrices (`VectorXd` / `MatrixXd`) are
modelled as functions `ℕ → ℝ` and `ℕ → ℕ → ℝ`; every loop of the source
becomes a `Finset.range` sum with the same bounds.  C's truncating `fmod` is
modelled exactly by `fmodR`.  Eigen's `llt().matrixL()` (lower Cholesky
factor) is modelled by the textbook first-column/Schur-complement recursion
`cholAux`, which agrees with the (unique) lower Cholesky factor on positive
definite input; like the source — which never checks `.info()` — the model is
a total function.  Eigen's `.inverse()` on 2×2 and 3×3 matrices is the
analytic adjugate-over-determinant formula, modelled by `inv2` / `inv3`.
-/

namespace UKF

/-- The dimensions are compile-time constants in the source: `n_x_ = 5`. -/
def n_x : ℕ := 5

/-- Constant `n_aug_ = 7`. -/
def n_aug : ℕ := 7

/-- Constant `lambda_ = 3.0 - n_aug_` (sigma point spreading parameter). -/
noncomputable def lambda_ : ℝ := 3 - (n_aug : ℝ)

/-- Constant `std_a_ = 1.0` (longitudinal acceleration process noise). -/
noncomputable def std_a : ℝ := 1

/-- Constant `std_yawdd_ = 1.0` (yaw acceleration process noise). -/
noncomputable def std_yawdd : ℝ := 1

/-- Constant `std_laspx_ = 0.15`. -/
noncomputable def std_laspx : ℝ := 0.15

/-- Constant `std_laspy_ = 0.15`. -/
noncomputable def std_laspy : ℝ := 0.15

/-- Constant `std_radr_ = 0.3`. -/
noncomputable def std_radr : ℝ := 0.3

/-- Constant `std_radphi_ = 0.03`. -/
noncomputable def std_radphi : ℝ := 0.03

/-- Constant `std_radrd_ = 0.3`. -/
noncomputable def std_radrd : ℝ := 0.3

/-- Weights of sigma points, set once in the constructor:
`weights_(0) = lambda_ / (lambda_ + n_aug_)`, and
`weights_(i) = 0.5 / (n_aug_ + lambda_)` for `1 ≤ i < 2*n_aug_+1`. -/
noncomputable def weights (i : ℕ) : ℝ :=
  if i = 0 then lambda_ / (lambda_ + (n_aug : ℝ)) else 0.5 / ((n_aug : ℝ) + lambda_)

/-- Modelled from the spec: the measurement package (its header is not in the
source tree; the source reads `sensor_type_`, `raw_measurements_` at indices
0..2, and `timestamp_`).  The sensor tag is a C++ enum, i.e. an integer
that names two known variants but — as an integer — can hold other values. -/
structure MeasurementPackage where
  sensor_type_ : ℤ
  raw_measurements_ : ℕ → ℝ
  timestamp_ : ℤ

/-- Modelled from the spec: first enum variant (`LASER`). -/
def LASER : ℤ := 0

/-- Modelled from the spec: second enum variant (`RADAR`). -/
def RADAR : ℤ := 1

/-- The mutable fields of class `UKF` that `ProcessMeasurement` and its
callees read or write (`is_initialized_`, `use_laser_`, `use_radar_`,
`time_us_`, `x_`, `P_`, `Xsig_pred_`, `NIS_radar_`, `NIS_laser_`). -/
structure UKFState where
  is_init : Bool
  use_laser : Bool
  use_radar : Bool
  time_us : ℤ
  x : ℕ → ℝ
  P : ℕ → ℕ → ℝ
  Xsig_pred : ℕ → ℕ → ℝ
  NIS_radar : ℝ
  NIS_laser : ℝ

/-! ## Small linear-algebra helpers (Eigen operations used by the source) -/

/-- Matrix product with explicit inner dimension `m`
(`(A*B)(i,k) = Σ_{j<m} A(i,j)·B(j,k)`). -/
noncomputable def matMul (m : ℕ) (A B : ℕ → ℕ → ℝ) : ℕ → ℕ → ℝ :=
  fun i k => ∑ j in Finset.range m, A i j * B j k

/-- Matrix–vector product with explicit inner dimension `m`. -/
noncomputable def matVec (m : ℕ) (A : ℕ → ℕ → ℝ) (v : ℕ → ℝ) : ℕ → ℝ :=
  fun i => ∑ j in Finset.range m, A i j * v j

/-- Transpose. -/
def transp (A : ℕ → ℕ → ℝ) : ℕ → ℕ → ℝ := fun i j => A j i

/-- Determinant of a 2×2 matrix (Eigen computes the 2×2 inverse analytically
from this determinant). -/
noncomputable def det2 (S : ℕ → ℕ → ℝ) : ℝ := S 0 0 * S 1 1 - S 0 1 * S 1 0

/-- Analytic 2×2 inverse, `adjugate / det`, as Eigen's `.inverse()` computes
it for fixed tiny sizes.  Total: on a singular input the real division by the
zero determinant yields junk (0 in `ℝ`; non-finite values in `double`);
no failure is signalled, exactly as in the source. -/
noncomputable def inv2 (S : ℕ → ℕ → ℝ) : ℕ → ℕ → ℝ := fun i j =>
  (if i = 0 ∧ j = 0 then S 1 1
   else if i = 0 ∧ j = 1 then -(S 0 1)
   else if i = 1 ∧ j = 0 then -(S 1 0)
   else if i = 1 ∧ j = 1 then S 0 0
   else 0) / det2 S

/-- Determinant of a 3×3 matrix (cofactor expansion along the first row). -/
noncomputable def det3 (S : ℕ → ℕ → ℝ) : ℝ :=
  S 0 0 * (S 1 1 * S 2 2 - S 1 2 * S 2 1)
  - S 0 1 * (S 1 0 * S 2 2 - S 1 2 * S 2 0)
  + S 0 2 * (S 1 0 * S 2 1 - S 1 1 * S 2 0)

/-- Analytic 3×3 inverse, `adjugate / det`; total, like `inv2`. -/
noncomputable def inv3 (S : ℕ → ℕ → ℝ) : ℕ → ℕ → ℝ := fun i j =>
  (if i = 0 ∧ j = 0 then S 1 1 * S 2 2 - S 1 2 * S 2 1
   else if i = 0 ∧ j = 1 then -(S 0 1 * S 2 2 - S 0 2 * S 2 1)
   else if i = 0 ∧ j = 2 then S 0 1 * S 1 2 - S 0 2 * S 1 1
   else if i = 1 ∧ j = 0 then -(S 1 0 * S 2 2 - S 1 2 * S 2 0)
   else if i = 1 ∧ j = 1 then S 0 0 * S 2 2 - S 0 2 * S 2 0
   else if i = 1 ∧ j = 2 then -(S 0 0 * S 1 2 - S 0 2 * S 1 0)
   else if i = 2 ∧ j = 0 then S 1 0 * S 2 1 - S 1 1 * S 2 0
   else if i = 2 ∧ j = 1 then -(S 0 0 * S 2 1 - S 0 1 * S 2 0)
   else if i = 2 ∧ j = 2 then S 0 0 * S 1 1 - S 0 1 * S 1 0
   else 0) / det3 S

/-! ## Angle normalization (`fmod(angle + M_PI, 2*M_PI) - M_PI`) -/

/-- Rounding toward zero, as C's `trunc`. -/
noncomputable def truncR (x : ℝ) : ℤ := if 0 ≤ x then ⌊x⌋ else ⌈x⌉

/-- C's `fmod` in exact arithmetic: `fmod(x,y) = x - y·trunc(x/y)`. -/
noncomputable def fmodR (x y : ℝ) : ℝ := x - y * (truncR (x / y) : ℝ)

/-- The angle-normalization computation the source repeats at
`ukf.cpp:222`, `:311`, `:326`, `:331`, `:345`:
`fmod(angle + M_PI, 2.0*M_PI) - M_PI`. -/
noncomputable def normAngle (a : ℝ) : ℝ :=
  fmodR (a + Real.pi) (2 * Real.pi) - Real.pi

/-! ## Cholesky-style matrix square root (`P_aug.llt().matrixL()`) -/

/-- Lower Cholesky factor by the first-column/Schur-complement recursion:
`L(0,0) = √A(0,0)`, `L(j,0) = A(j,0)/L(0,0)`, zero above the diagonal, and
the trailing block is the factor of the Schur complement
`A'(r,c) = A(r+1,c+1) - A(r+1,0)·A(c+1,0)/A(0,0)`.  On symmetric positive
definite input this is the unique lower Cholesky factor, i.e. what Eigen's
`llt().matrixL()` returns.  Like the source (which never checks
`llt().info()`), it is a total function: on non-PD input `Real.sqrt` of a
negative pivot and division by a zero pivot silently produce junk instead of
an error. -/
noncomputable def cholAux : ℕ → (ℕ → ℕ → ℝ) → ℕ → ℕ → ℝ
  | 0, _, _, _ => 0
  | n + 1, A, j, k =>
    let d := Real.sqrt (A 0 0)
    if k = 0 then (if j = 0 then d else A j 0 / d)
    else if j = 0 then 0
    else cholAux n (fun r c => A (r + 1) (c + 1) - (A (r + 1) 0 / d) * (A (c + 1) 0 / d))
      (j - 1) (k - 1)

/-! ## Prediction (`UKF::Prediction`, ukf.cpp:135-226) -/

/-- The augmented mean state: `x_aug.head(5) = x_`, `x_aug(5) = x_aug(6) = 0`. -/
def augX (s : UKFState) : ℕ → ℝ := fun i => if i < 5 then s.x i else 0

/-- The augmented covariance: zero-filled, top-left 5×5 block `P_`,
`P_aug(5,5) = std_a_²`, `P_aug(6,6) = std_yawdd_²`. -/
noncomputable def augP (s : UKFState) : ℕ → ℕ → ℝ := fun i j =>
  if i < 5 ∧ j < 5 then s.P i j
  else if i = 5 ∧ j = 5 then std_a * std_a
  else if i = 6 ∧ j = 6 then std_yawdd * std_yawdd
  else 0

/-- The factor `MatrixXd L = P_aug.llt().matrixL()`. -/
noncomputable def matrixL (s : UKFState) : ℕ → ℕ → ℝ := cholAux 7 (augP s)

/-- The augmented sigma points: column 0 is `x_aug`; columns `i+1` and
`i+1+n_aug` (for `i < n_aug`) are `x_aug ± √(λ+n_aug) · L.col(i)`. -/
noncomputable def XsigAug (s : UKFState) : ℕ → ℕ → ℝ := fun r c =>
  if c = 0 then augX s r
  else if c < 8 then augX s r + Real.sqrt (lambda_ + (n_aug : ℝ)) * matrixL s r (c - 1)
  else augX s r - Real.sqrt (lambda_ + (n_aug : ℝ)) * matrixL s r (c - 8)

/-- The CTRV propagation of one augmented sigma point over `delta_t`
(ukf.cpp:167-207): the position update branches on `fabs(yawd) > 0.001`
(turning closed form vs straight line), then the process-noise driven
correction terms are added. -/
noncomputable def propagate (delta_t : ℝ) (c : ℕ → ℝ) : ℕ → ℝ := fun i =>
  let p_x := c 0
  let p_y := c 1
  let v := c 2
  let yaw := c 3
  let yawd := c 4
  let nu_a := c 5
  let nu_yawdd := c 6
  let px_p := if 0.001 < |yawd| then
      p_x + v / yawd * (Real.sin (yaw + yawd * delta_t) - Real.sin yaw)
    else p_x + v * delta_t * Real.cos yaw
  let py_p := if 0.001 < |yawd| then
      p_y + v / yawd * (Real.cos yaw - Real.cos (yaw + yawd * delta_t))
    else p_y + v * delta_t * Real.sin yaw
  if i = 0 then px_p + 0.5 * nu_a * delta_t * delta_t * Real.cos yaw
  else if i = 1 then py_p + 0.5 * nu_a * delta_t * delta_t * Real.sin yaw
  else if i = 2 then v + nu_a * delta_t
  else if i = 3 then yaw + yawd * delta_t + 0.5 * nu_yawdd * delta_t * delta_t
  else if i = 4 then yawd + nu_yawdd * delta_t
  else 0

/-- Matrix `Xsig_pred_`: every augmented sigma-point column propagated. -/
noncomputable def XsigPredOf (delta_t : ℝ) (s : UKFState) : ℕ → ℕ → ℝ :=
  fun i c => propagate delta_t (fun r => XsigAug s r c) i

/-- Predicted state mean: `x_ = Σ_{i<15} weights_(i) · Xsig_pred_.col(i)`. -/
noncomputable def predMean (delta_t : ℝ) (s : UKFState) : ℕ → ℝ :=
  fun i => ∑ c in Finset.range 15, weights c * XsigPredOf delta_t s i c

/-- One column's state difference `Xsig_pred_.col(c) - x_`, with component 3
(the heading) angle-normalized, as in the covariance loop. -/
noncomputable def predDiff (delta_t : ℝ) (s : UKFState) (k c : ℕ) : ℝ :=
  let d := XsigPredOf delta_t s k c - predMean delta_t s k
  if k = 3 then normAngle d else d

/-- Predicted covariance:
`P_ = Σ_{c<15} weights_(c) · x_diff · x_diffᵀ` with normalized heading. -/
noncomputable def predCov (delta_t : ℝ) (s : UKFState) : ℕ → ℕ → ℝ :=
  fun i j => ∑ c in Finset.range 15, weights c * (predDiff delta_t s i c * predDiff delta_t s j c)

/-- Method `UKF::Prediction`: writes `Xsig_pred_`, then the recombined mean `x_`
and covariance `P_`.  (The covariance loop reads the already-updated mean,
as in the source.) -/
noncomputable def Prediction (delta_t : ℝ) (s : UKFState) : UKFState :=
  { s with
    Xsig_pred := XsigPredOf delta_t s
    x := predMean delta_t s
    P := predCov delta_t s }

/-! ## Lidar update (`UKF::UpdateLidar`, ukf.cpp:232-261) -/

/-- The fixed 2×5 selection matrix `H` (`H(0,0) = H(1,1) = 1`, rest 0). -/
def lidH : ℕ → ℕ → ℝ := fun i j =>
  if (i = 0 ∧ j = 0) ∨ (i = 1 ∧ j = 1) then 1 else 0

/-- Lidar measurement noise `R = diag(std_laspx_², std_laspy_²)`. -/
noncomputable def lidR : ℕ → ℕ → ℝ := fun i j =>
  if i = 0 ∧ j = 0 then std_laspx * std_laspx
  else if i = 1 ∧ j = 1 then std_laspy * std_laspy
  else 0

/-- The innovation covariance of the lidar update: `S = H·P_·Hᵀ + R`. -/
noncomputable def lidarS (s : UKFState) : ℕ → ℕ → ℝ := fun i j =>
  matMul 5 (matMul 5 lidH s.P) (transp lidH) i j + lidR i j

/-- Method `UKF::UpdateLidar`: if `use_laser_` is off, set `NIS_laser_ = 0` and
return; else the linear Kalman update with gain `K = (H·P_)ᵀ·S⁻¹`, state
`x_ += K·z_diff`, covariance `P_ -= K·(H·P_)`, and
`NIS_laser_ = z_diffᵀ·S⁻¹·z_diff`. -/
noncomputable def UpdateLidar (s : UKFState) (m : MeasurementPackage) : UKFState :=
  if s.use_laser = true then
    let HP := matMul 5 lidH s.P
    let z_diff : ℕ → ℝ := fun i => m.raw_measurements_ i - matVec 5 lidH s.x i
    let Si := inv2 (lidarS s)
    let K := matMul 2 (transp HP) Si
    { s with
      x := fun i => s.x i + matVec 2 K z_diff i
      P := fun i j => s.P i j - matMul 2 K HP i j
      NIS_laser :=
        ∑ i in Finset.range 2, ∑ j in Finset.range 2, z_diff i * Si i j * z_diff j }
  else { s with NIS_laser := 0 }

/-! ## Radar update (`UKF::UpdateRadar`, ukf.cpp:267-352) -/

/-- C's `atan2(y, x)`, the argument of the complex number `x + y·i`,
valued in `(-π, π]`. -/
noncomputable def atan2R (y x : ℝ) : ℝ := Complex.arg (⟨x, y⟩ : ℂ)

/-- The radar measurement transform of one predicted sigma point
(ukf.cpp:275-295): range `√(px²+py²)`; if that range is `< 0.001` it is
clamped to `0.001` and the bearing forced to `0`, else the bearing is
`atan2(py, px)`; the range rate divides by the (possibly clamped) range. -/
noncomputable def radarT (c : ℕ → ℝ) : ℕ → ℝ := fun i =>
  let p_x := c 0
  let p_y := c 1
  let v := c 2
  let yaw := c 3
  let v1 := Real.cos yaw * v
  let v2 := Real.sin yaw * v
  let r0 := Real.sqrt (p_x * p_x + p_y * p_y)
  let z0 := if r0 < 0.001 then 0.001 else r0
  if i = 0 then z0
  else if i = 1 then (if r0 < 0.001 then 0 else atan2R p_y p_x)
  else if i = 2 then (p_x * v1 + p_y * v2) / z0
  else 0

/-- Matrix `Zsig`: every predicted sigma-point column mapped into measurement
space. -/
noncomputable def Zsig (s : UKFState) : ℕ → ℕ → ℝ :=
  fun i c => radarT (fun r => s.Xsig_pred r c) i

/-- Predicted radar measurement mean `z_pred = Σ weights_(c) · Zsig.col(c)`. -/
noncomputable def zPred (s : UKFState) : ℕ → ℝ :=
  fun i => ∑ c in Finset.range 15, weights c * Zsig s i c

/-- One column's measurement difference `Zsig.col(c) - z_pred`, with
component 1 (the bearing) angle-normalized. -/
noncomputable def zDiffN (s : UKFState) (i c : ℕ) : ℝ :=
  let d := Zsig s i c - zPred s i
  if i = 1 then normAngle d else d

/-- One column's state difference `Xsig_pred_.col(c) - x_`, with component 3
(the heading) angle-normalized, as in the cross-covariance loop. -/
noncomputable def xDiffN (s : UKFState) (k c : ℕ) : ℝ :=
  let d := s.Xsig_pred k c - s.x k
  if k = 3 then normAngle d else d

/-- Radar measurement noise added on the diagonal of `S`:
`diag(std_radr_², std_radphi_², std_radrd_²)`. -/
noncomputable def radR : ℕ → ℕ → ℝ := fun i j =>
  if i = 0 ∧ j = 0 then std_radr * std_radr
  else if i = 1 ∧ j = 1 then std_radphi * std_radphi
  else if i = 2 ∧ j = 2 then std_radrd * std_radrd
  else 0

/-- The radar innovation covariance
`S = Σ weights_(c) · z_diff · z_diffᵀ + R`. -/
noncomputable def radarS (s : UKFState) : ℕ → ℕ → ℝ := fun i j =>
  (∑ c in Finset.range 15, weights c * (zDiffN s i c * zDiffN s j c)) + radR i j

/-- The cross covariance `Tc = Σ weights_(c) · x_diff · z_diffᵀ`. -/
noncomputable def radarTc (s : UKFState) : ℕ → ℕ → ℝ := fun i j =>
  ∑ c in Finset.range 15, weights c * (xDiffN s i c * zDiffN s j c)

/-- The radar residual `raw - z_pred`, bearing component normalized. -/
noncomputable def radarRes (s : UKFState) (m : MeasurementPackage) : ℕ → ℝ := fun i =>
  let d := m.raw_measurements_ i - zPred s i
  if i = 1 then normAngle d else d

/-- Method `UKF::UpdateRadar`: if `use_radar_` is off, set `NIS_radar_ = 0` and
return; else the sigma-point update with gain `K = Tc·S⁻¹`, state
`x_ += K·z_diff`, covariance `P_ -= Tc·Kᵀ`, and
`NIS_radar_ = z_diffᵀ·S⁻¹·z_diff`. -/
noncomputable def UpdateRadar (s : UKFState) (m : MeasurementPackage) : UKFState :=
  if s.use_radar = true then
    let Si := inv3 (radarS s)
    let K := matMul 3 (radarTc s) Si
    { s with
      x := fun i => s.x i + matVec 3 K (radarRes s m) i
      P := fun i j => s.P i j - matMul 3 (radarTc s) (transp K) i j
      NIS_radar :=
        ∑ i in Finset.range 3, ∑ j in Finset.range 3,
          radarRes s m i * Si i j * radarRes s m j }
  else { s with NIS_radar := 0 }

/-! ## Top-level step (`UKF::ProcessMeasurement`, ukf.cpp:87-128) -/

/-- The initialization seed covariance (ukf.cpp:91-94): identity with
`P_(3,3) = π²/64` and `P_(4,4) = P_(3,3)/10`. -/
noncomputable def seedP : ℕ → ℕ → ℝ := fun i j =>
  if i = j ∧ i < 5 then
    (if i = 3 then Real.pi * Real.pi / 64
     else if i = 4 then Real.pi * Real.pi / 64 / 10
     else 1)
  else 0

/-- The initialization seed state (ukf.cpp:90): `(0, 0, 3, 0, 0.1)`. -/
noncomputable def seedX : ℕ → ℝ := fun i =>
  if i = 0 then 0 else if i = 1 then 0 else if i = 2 then 3
  else if i = 3 then 0 else if i = 4 then 0.1 else 0

/-- The elapsed time in seconds,
`dt = (meas_package.timestamp_ - time_us_) / 1000000.0`. -/
noncomputable def deltaT (s : UKFState) (m : MeasurementPackage) : ℝ :=
  ((m.timestamp_ - s.time_us : ℤ) : ℝ) / 1000000

/-- The state after the prediction half of a post-initialization step:
`time_us_` recorded, then `Prediction(dt)`. -/
noncomputable def predictedAt (s : UKFState) (m : MeasurementPackage) : UKFState :=
  Prediction (deltaT s m) { s with time_us := m.timestamp_ }

/-- Method `UKF::ProcessMeasurement`.  First call: seed `x_` and `P_`, overwrite the
position (and position covariance) from the measurement by sensor tag, zero
that sensor's NIS, record the timestamp, mark initialized, and return
without prediction or update.  Later calls: compute `dt`, record the
timestamp, run `Prediction(dt)`, then dispatch on the sensor tag
(`RADAR`, else `LASER`, else nothing — the source has no further branch). -/
noncomputable def ProcessMeasurement (s : UKFState) (m : MeasurementPackage) : UKFState :=
  if s.is_init = true then
    let s2 := predictedAt s m
    if m.sensor_type_ = RADAR then UpdateRadar s2 m
    else if m.sensor_type_ = LASER then UpdateLidar s2 m
    else s2
  else
    if m.sensor_type_ = RADAR then
      { s with
        x := fun i =>
          if i = 0 then m.raw_measurements_ 0 * Real.cos (m.raw_measurements_ 1)
          else if i = 1 then m.raw_measurements_ 0 * Real.sin (m.raw_measurements_ 1)
          else seedX i
        P := fun i j =>
          if i = 0 ∧ j = 0 then std_radr * std_radr * 0.5
          else if i = 1 ∧ j = 1 then std_radr * std_radr * 0.5
          else seedP i j
        NIS_radar := 0
        time_us := m.timestamp_
        is_init := true }
    else if m.sensor_type_ = LASER then
      { s with
        x := fun i =>
          if i = 0 then m.raw_measurements_ 0
          else if i = 1 then m.raw_measurements_ 1
          else seedX i
        P := fun i j =>
          if i = 0 ∧ j = 0 then std_laspx * std_laspx
          else if i = 1 ∧ j = 1 then std_laspy * std_laspy
          else seedP i j
        NIS_laser := 0
        time_us := m.timestamp_
        is_init := true }
    else
      { s with
        x := seedX
        P := seedP
        time_us := m.timestamp_
        is_init := true }

/-! ## Concrete states and packages used as test inputs -/

/-- An initialized state with the lidar disabled, zero state vector and
identity covariance. -/
noncomputable def c1state : UKFState :=
  { is_init := true, use_laser := false, use_radar := true, time_us := 0
    x := fun _ => 0, P := fun i j => if i = j then 1 else 0
    Xsig_pred := fun _ _ => 0, NIS_radar := 0, NIS_laser := 0 }

/-- A lidar measurement one second after `c1state`'s timestamp. -/
noncomputable def c1pkg : MeasurementPackage :=
  { sensor_type_ := LASER, raw_measurements_ := fun _ => 0, timestamp_ := 1000000 }

/-- An initialized state with both sensors enabled. -/
noncomputable def c2state : UKFState :=
  { is_init := true, use_laser := true, use_radar := true, time_us := 0
    x := fun _ => 0, P := fun i j => if i = j then 1 else 0
    Xsig_pred := fun _ _ => 0, NIS_radar := 3, NIS_laser := 2 }

/-- A measurement whose sensor tag (2) is neither `LASER` (0) nor
`RADAR` (1). -/
noncomputable def c2pkg : MeasurementPackage :=
  { sensor_type_ := 2, raw_measurements_ := fun _ => 0, timestamp_ := 1000000 }

/-- An initialized state whose covariance has the negative diagonal entry
`P_(0,0) = -1`, so the augmented covariance is not positive definite. -/
noncomputable def c3state : UKFState :=
  { is_init := true, use_laser := false, use_radar := true, time_us := 0
    x := fun _ => 0, P := fun i j => if i = j then (if i = 0 then -1 else 1) else 0
    Xsig_pred := fun _ _ => 0, NIS_radar := 0, NIS_laser := 7 }

/-- A lidar measurement one second after `c3state`'s timestamp. -/
noncomputable def c3pkg : MeasurementPackage :=
  { sensor_type_ := LASER, raw_measurements_ := fun _ => 0, timestamp_ := 1000000 }

/-- An initialized state whose covariance entry `P_(0,0) = -0.0225`
makes the lidar innovation covariance `S = H·P·Hᵀ + R` singular
(`S(0,0) = 0`, `S(0,1) = S(1,0) = 0`). -/
noncomputable def c4state : UKFState :=
  { is_init := true, use_laser := true, use_radar := true, time_us := 0
    x := fun _ => 0, P := fun i j => if i = 0 ∧ j = 0 then -(9 / 400) else 0
    Xsig_pred := fun _ _ => 0, NIS_radar := 0, NIS_laser := 0 }

/-- A lidar measurement fed to `c4state`'s update. -/
noncomputable def c4pkg : MeasurementPackage :=
  { sensor_type_ := LASER, raw_measurements_ := fun i => if i = 0 then 1 else 0
    timestamp_ := 1000000 }

/-- An uninitialized state, as the constructor leaves it. -/
noncomputable def c7state : UKFState :=
  { is_init := false, use_laser := true, use_radar := true, time_us := 0
    x := fun _ => 0, P := fun _ _ => 0
    Xsig_pred := fun _ _ => 0, NIS_radar := 0, NIS_laser := 0 }

/-- A first radar measurement with range 5, bearing 0, range rate 0. -/
noncomputable def radarInitPkg : MeasurementPackage :=
  { sensor_type_ := RADAR, raw_measurements_ := fun i => if i = 0 then 5 else 0
    timestamp_ := 42 }

/-- A first lidar measurement with position (2, 3). -/
noncomputable def lidarInitPkg : MeasurementPackage :=
  { sensor_type_ := LASER
    raw_measurements_ := fun i => if i = 0 then 2 else if i = 1 then 3 else 0
    timestamp_ := 42 }

/-- A lidar measurement after initialization (for the NIS frame claims). -/
noncomputable def c10LaserPkg : MeasurementPackage :=
  { sensor_type_ := LASER, raw_measurements_ := fun _ => 0, timestamp_ := 2000000 }

/-- A radar measurement after initialization (for the NIS frame claims). -/
noncomputable def c10RadarPkg : MeasurementPackage :=
  { sensor_type_ := RADAR, raw_measurements_ := fun i => if i = 0 then 1 else 0
    timestamp_ := 2000000 }

/-! ## Helper lemmas -/

/-- The Cholesky recursion maps a matrix that is the identity on its leading
`n × n` block to the identity on that block. -/
theorem cholAux_one :
    ∀ (n : ℕ) (A : ℕ → ℕ → ℝ),
      (∀ r c, r < n → c < n → A r c = if r = c then 1 else 0) →
      ∀ j k, j < n → k < n → cholAux n A j k = if j = k then 1 else 0 := by
  intro n
  induction n with
  | zero => intro A _ j k hj _; omega
  | succ n ih =>
    intro A hA j k hj hk
    have h00 : A 0 0 = 1 := by simpa using hA 0 0 (Nat.succ_pos n) (Nat.succ_pos n)
    have hd : Real.sqrt (A 0 0) = 1 := by rw [h00, Real.sqrt_one]
    rcases Nat.eq_zero_or_pos k with hk0 | hkpos
    · subst hk0
      rcases Nat.eq_zero_or_pos j with hj0 | hjpos
      · subst hj0; simp [cholAux, hd]
      · have hj0 : A j 0 = 0 := by
          have := hA j 0 hj (Nat.succ_pos n)
          simpa [Nat.pos_iff_ne_zero.mp hjpos] using this
        simp [cholAux, hd, hj0, Nat.pos_iff_ne_zero.mp hjpos]
    · rcases Nat.eq_zero_or_pos j with hj0 | hjpos
      · subst hj0
        simp [cholAux, Nat.pos_iff_ne_zero.mp hkpos, (Nat.pos_iff_ne_zero.mp hkpos).symm]
      · have hkne := Nat.pos_iff_ne_zero.mp hkpos
        have hjne := Nat.pos_iff_ne_zero.mp hjpos
        have hstep : cholAux (n + 1) A j k =
            cholAux n (fun r c => A (r + 1) (c + 1) -
              (A (r + 1) 0 / Real.sqrt (A 0 0)) * (A (c + 1) 0 / Real.sqrt (A 0 0)))
              (j - 1) (k - 1) := by
          simp [cholAux, hkne, hjne]
        rw [hstep]
        have hA' : ∀ r c, r < n → c < n →
            (A (r + 1) (c + 1) -
              (A (r + 1) 0 / Real.sqrt (A 0 0)) * (A (c + 1) 0 / Real.sqrt (A 0 0)))
            = if r = c then (1 : ℝ) else 0 := by
          intro r c hr hc
          have h1 : A (r + 1) (c + 1) = if r = c then (1 : ℝ) else 0 := by
            have := hA (r + 1) (c + 1) (by omega) (by omega)
            simpa using this
          have h2 : A (r + 1) 0 = 0 := by
            have := hA (r + 1) 0 (by omega) (Nat.succ_pos n)
            simpa using this
          rw [h1, h2]; ring
        have := ih _ hA' (j - 1) (k - 1) (by omega) (by omega)
        rw [this]
        have hjk : (j - 1 = k - 1) ↔ (j = k) := by
          constructor <;> intro h <;> omega
        by_cases hq : j = k
        · simp [hq, hjk.mpr hq]
        · simp only [hq, if_false]
          rw [if_neg (fun h => hq (hjk.mp h))]

/-! ## Claim theorems -/

/-- C6: The weight vector fixed at construction has
`weight[0] = λ/(λ+n_aug)` and every remaining weight equal to
`0.5/(λ+n_aug)`, with `λ = 3 − n_aug`, and the sum of all `2·n_aug+1`
weights equals 1. -/
theorem c6_weights :
    weights 0 = lambda_ / (lambda_ + (n_aug : ℝ)) ∧
    (∀ i : ℕ, i ≠ 0 → weights i = 0.5 / (lambda_ + (n_aug : ℝ))) ∧
    lambda_ = 3 - (n_aug : ℝ) ∧
    (∑ i in Finset.range (2 * n_aug + 1), weights i) = 1 := by
  refine ⟨by simp [weights], fun i hi => by simp [weights, hi, add_comm], rfl, ?_⟩
  have h : (2 * n_aug + 1) = 15 := by norm_num [n_aug]
  rw [h]
  simp only [weights, lambda_, n_aug, Finset.sum_range_succ, Finset.sum_range_zero]
  norm_num

/-- C8: In the motion-model propagation of each sigma point, when the
heading-rate magnitude is at or below the threshold 0.001, the predicted
position after `Δt` equals the closed-form constant-velocity formula
(plus the noise correction terms); when the magnitude exceeds the
threshold, the closed-form turning update is used instead. -/
theorem c8_motion_model_branches (dt : ℝ) (c : ℕ → ℝ) :
    (|c 4| ≤ 0.001 →
      propagate dt c 0
        = c 0 + c 2 * dt * Real.cos (c 3) + 0.5 * c 5 * dt * dt * Real.cos (c 3) ∧
      propagate dt c 1
        = c 1 + c 2 * dt * Real.sin (c 3) + 0.5 * c 5 * dt * dt * Real.sin (c 3)) ∧
    (0.001 < |c 4| →
      propagate dt c 0
        = c 0 + c 2 / c 4 * (Real.sin (c 3 + c 4 * dt) - Real.sin (c 3))
          + 0.5 * c 5 * dt * dt * Real.cos (c 3) ∧
      propagate dt c 1
        = c 1 + c 2 / c 4 * (Real.cos (c 3) - Real.cos (c 3 + c 4 * dt))
          + 0.5 * c 5 * dt * dt * Real.sin (c 3)) := by
  constructor
  · intro h
    have hn : ¬ (0.001 < |c 4|) := not_lt.mpr h
    constructor <;> simp [propagate, hn]
  · intro h
    constructor <;> simp [propagate, h]

/-- C9: In the radar measurement transform of each predicted sigma point,
if the computed range `√(px²+py²)` is below the floor 0.001, the range is
clamped to 0.001 and the bearing forced to 0; consequently the divisor of
the range-rate term is always at least 0.001. -/
theorem c9_radar_range_floor (c : ℕ → ℝ) :
    (Real.sqrt (c 0 * c 0 + c 1 * c 1) < 0.001 →
      radarT c 0 = 0.001 ∧ radarT c 1 = 0) ∧
    0.001 ≤ radarT c 0 := by
  constructor
  · intro h
    constructor <;> simp [radarT, h]
  · by_cases h : Real.sqrt (c 0 * c 0 + c 1 * c 1) < 0.001
    · simp [radarT, h]
    · simp only [radarT, if_neg h, if_pos rfl]
      exact not_lt.mp h

/-- C5 counterexample: at the input angle `π` — which lies in `(−π, π]` —
the source's normalization `fmod(angle + π, 2π) − π` returns `−π`, which is
outside `(−π, π]`; in particular the map is not the identity on `(−π, π]`. -/
theorem c5_counterexample :
    normAngle Real.pi = -Real.pi ∧
    normAngle Real.pi ∉ Set.Ioc (-Real.pi) Real.pi ∧
    Real.pi ∈ Set.Ioc (-Real.pi) Real.pi ∧
    normAngle Real.pi ≠ Real.pi := by
  have hpi := Real.pi_pos
  have h2 : (Real.pi + Real.pi) / (2 * Real.pi) = 1 := by
    field_simp
    ring
  have hmain : normAngle Real.pi = -Real.pi := by
    unfold normAngle fmodR truncR
    rw [h2]
    norm_num
    ring
  refine ⟨hmain, ?_, ?_, ?_⟩
  · rw [hmain]
    simp [Set.mem_Ioc]
  · exact ⟨by linarith, le_refl _⟩
  · rw [hmain]
    intro h
    linarith

/-- C5 amended: for every input angle `a ≥ −π`, the normalized result
`fmod(a + π, 2π) − π` lies in the half-open interval `[−π, π)` (not
`(−π, π]`: the endpoint `π` is mapped to `−π`), and the normalization is the
identity on the open interval `(−π, π)`.  For `a < −π` the C `fmod`
truncates toward zero and the result can fall below `−π` (e.g.
`normAngle (−2π) = −2π`). -/
theorem c5_norm_angle_amended (a : ℝ) :
    (-Real.pi ≤ a → normAngle a ∈ Set.Ico (-Real.pi) Real.pi) ∧
    (a ∈ Set.Ioo (-Real.pi) Real.pi → normAngle a = a) := by
  have hpi := Real.pi_pos
  have h2pi : (0 : ℝ) < 2 * Real.pi := by linarith
  constructor
  · intro ha
    have hx : 0 ≤ a + Real.pi := by linarith
    have hq : 0 ≤ (a + Real.pi) / (2 * Real.pi) := div_nonneg hx (le_of_lt h2pi)
    unfold normAngle fmodR truncR
    rw [if_pos hq]
    set q := (a + Real.pi) / (2 * Real.pi) with hqdef
    have h1 : a + Real.pi = q * (2 * Real.pi) := by
      rw [hqdef]
      field_simp
    have hfr1 : (⌊q⌋ : ℝ) ≤ q := Int.floor_le q
    have hfr2 : q < ⌊q⌋ + 1 := Int.lt_floor_add_one q
    have hlow : 0 ≤ a + Real.pi - 2 * Real.pi * (⌊q⌋ : ℝ) := by
      nlinarith [mul_nonneg (sub_nonneg.mpr hfr1) (le_of_lt h2pi)]
    have hhigh : a + Real.pi - 2 * Real.pi * (⌊q⌋ : ℝ) < 2 * Real.pi := by
      nlinarith [mul_lt_mul_of_pos_right (show q - (⌊q⌋ : ℝ) < 1 by linarith) h2pi]
    constructor
    · linarith
    · linarith
  · rintro ⟨ha1, ha2⟩
    have hx : 0 < a + Real.pi := by linarith
    have hlt : a + Real.pi < 2 * Real.pi := by linarith
    have hq0 : (0 : ℝ) ≤ (a + Real.pi) / (2 * Real.pi) := le_of_lt (div_pos hx h2pi)
    have hfl : ⌊(a + Real.pi) / (2 * Real.pi)⌋ = 0 := by
      rw [Int.floor_eq_zero_iff]
      exact ⟨hq0, (div_lt_one h2pi).mpr hlt⟩
    unfold normAngle fmodR truncR
    rw [if_pos hq0, hfl]
    push_cast
    ring

/-- C2 (code evaluated at the failing input): a post-initialization
measurement whose sensor tag is 2 — neither `LASER` (0) nor `RADAR` (1) —
is silently consumed: `ProcessMeasurement` records the timestamp and runs
the prediction, then falls through both dispatch branches, performing no
update and signalling no error (the result is exactly the prediction-only
state; both NIS diagnostics keep their prior values). -/
theorem c2_unknown_tag_silently_consumed :
    ProcessMeasurement c2state c2pkg = predictedAt c2state c2pkg ∧
    (ProcessMeasurement c2state c2pkg).time_us = c2pkg.timestamp_ ∧
    (ProcessMeasurement c2state c2pkg).NIS_laser = c2state.NIS_laser ∧
    (ProcessMeasurement c2state c2pkg).NIS_radar = c2state.NIS_radar := by
  have h1 : ProcessMeasurement c2state c2pkg = predictedAt c2state c2pkg := by
    simp [ProcessMeasurement, c2state, c2pkg, RADAR, LASER]
  refine ⟨h1, ?_, ?_, ?_⟩ <;> rw [h1] <;>
    simp [predictedAt, Prediction, c2state, c2pkg]

/-- C7: on the first call (`is_initialized_` false), a radar measurement
with range 5, bearing 0, range rate 0 initializes the position to (5, 0),
and a lidar measurement with (2, 3) initializes it to (2, 3); either call
records the timestamp, marks the filter initialized, and returns without
running prediction (`Xsig_pred_` untouched) or the other update (the other
sensor's NIS untouched). -/
theorem c7_first_measurement_init (s : UKFState) (h : s.is_init = false) :
    ((ProcessMeasurement s radarInitPkg).x 0 = 5 ∧
     (ProcessMeasurement s radarInitPkg).x 1 = 0 ∧
     (ProcessMeasurement s radarInitPkg).time_us = radarInitPkg.timestamp_ ∧
     (ProcessMeasurement s radarInitPkg).is_init = true ∧
     (ProcessMeasurement s radarInitPkg).Xsig_pred = s.Xsig_pred ∧
     (ProcessMeasurement s radarInitPkg).NIS_laser = s.NIS_laser) ∧
    ((ProcessMeasurement s lidarInitPkg).x 0 = 2 ∧
     (ProcessMeasurement s lidarInitPkg).x 1 = 3 ∧
     (ProcessMeasurement s lidarInitPkg).time_us = lidarInitPkg.timestamp_ ∧
     (ProcessMeasurement s lidarInitPkg).is_init = true ∧
     (ProcessMeasurement s lidarInitPkg).Xsig_pred = s.Xsig_pred ∧
     (ProcessMeasurement s lidarInitPkg).NIS_radar = s.NIS_radar) := by
  constructor
  · refine ⟨?_, ?_, ?_, ?_, ?_, ?_⟩ <;>
      simp [ProcessMeasurement, h, radarInitPkg, RADAR, LASER]
  · refine ⟨?_, ?_, ?_, ?_, ?_, ?_⟩ <;>
      simp [ProcessMeasurement, h, lidarInitPkg, RADAR, LASER]

/-- C7 witness: the theorem applied to the concrete uninitialized state. -/
theorem c7_first_measurement_init_witness :
    (ProcessMeasurement c7state radarInitPkg).x 0 = 5 ∧
    (ProcessMeasurement c7state radarInitPkg).x 1 = 0 ∧
    (ProcessMeasurement c7state lidarInitPkg).x 0 = 2 ∧
    (ProcessMeasurement c7state lidarInitPkg).x 1 = 3 :=
  ⟨(c7_first_measurement_init c7state rfl).1.1,
   (c7_first_measurement_init c7state rfl).1.2.1,
   (c7_first_measurement_init c7state rfl).2.1,
   (c7_first_measurement_init c7state rfl).2.2.1⟩

/-- C10: after initialization, a lidar-tagged call leaves the radar NIS
diagnostic unchanged, and a radar-tagged call leaves the lidar NIS
diagnostic unchanged. -/
theorem c10_other_sensor_nis_unchanged (s : UKFState) (m : MeasurementPackage)
    (h : s.is_init = true) :
    (m.sensor_type_ = LASER → (ProcessMeasurement s m).NIS_radar = s.NIS_radar) ∧
    (m.sensor_type_ = RADAR → (ProcessMeasurement s m).NIS_laser = s.NIS_laser) := by
  constructor
  · intro hm
    have h1 : ProcessMeasurement s m = UpdateLidar (predictedAt s m) m := by
      simp [ProcessMeasurement, h, hm, LASER, RADAR]
    have h2 : (predictedAt s m).NIS_radar = s.NIS_radar := by
      simp [predictedAt, Prediction]
    rw [h1]
    unfold UpdateLidar
    split <;> simpa using h2
  · intro hm
    have h1 : ProcessMeasurement s m = UpdateRadar (predictedAt s m) m := by
      simp [ProcessMeasurement, h, hm, LASER, RADAR]
    have h2 : (predictedAt s m).NIS_laser = s.NIS_laser := by
      simp [predictedAt, Prediction]
    rw [h1]
    unfold UpdateRadar
    split <;> simpa using h2

/-- C10 witness: the theorem applied to a concrete initialized state and
concrete lidar/radar packages. -/
theorem c10_other_sensor_nis_unchanged_witness :
    (ProcessMeasurement c2state c10LaserPkg).NIS_radar = c2state.NIS_radar ∧
    (ProcessMeasurement c2state c10RadarPkg).NIS_laser = c2state.NIS_laser :=
  ⟨(c10_other_sensor_nis_unchanged c2state c10LaserPkg rfl).1 rfl,
   (c10_other_sensor_nis_unchanged c2state c10RadarPkg rfl).2 rfl⟩

/-- C3 (code evaluated at the failing input): with the corrupted covariance
`P_(0,0) = -1` the augmented covariance is not positive definite; the
matrix-square-root step silently produces an invalid factor
(`(L·Lᵀ)(0,0) = 0 ≠ -1`, since the square root of the negative pivot is
junk) and `ProcessMeasurement` nevertheless completes the step normally —
it records the timestamp and performs the update dispatch — rather than
reporting a fatal numerical fault to the caller.  (The source never
inspects `llt().info()`; nothing in its `void` interfaces can carry an
error.) -/
theorem c3_cholesky_failure_not_reported :
    augP c3state 0 0 = -1 ∧
    matMul 7 (matrixL c3state) (transp (matrixL c3state)) 0 0 = 0 ∧
    matMul 7 (matrixL c3state) (transp (matrixL c3state)) 0 0 ≠ augP c3state 0 0 ∧
    (ProcessMeasurement c3state c3pkg).time_us = c3pkg.timestamp_ ∧
    (ProcessMeasurement c3state c3pkg).NIS_laser = 0 := by
  have haug : augP c3state 0 0 = -1 := by simp [augP, c3state]
  have hL00 : matrixL c3state 0 0 = 0 := by
    unfold matrixL
    rw [show (7 : ℕ) = 6 + 1 from rfl]
    simp only [cholAux]
    rw [haug]
    simp [Real.sqrt_eq_zero']
  have hL0k : ∀ k : ℕ, k ≠ 0 → matrixL c3state 0 k = 0 := by
    intro k hk
    unfold matrixL
    rw [show (7 : ℕ) = 6 + 1 from rfl]
    simp [cholAux, hk]
  have hLLt : matMul 7 (matrixL c3state) (transp (matrixL c3state)) 0 0 = 0 := by
    simp [matMul, transp, Finset.sum_range_succ, hL00, hL0k]
  have hstep : ProcessMeasurement c3state c3pkg =
      { predictedAt c3state c3pkg with NIS_laser := 0 } := by
    simp [ProcessMeasurement, c3state, c3pkg, LASER, RADAR, UpdateLidar,
      predictedAt, Prediction]
  refine ⟨haug, hLLt, ?_, ?_, ?_⟩
  · rw [hLLt, haug]; norm_num
  · rw [hstep]; simp [predictedAt, Prediction]
  · rw [hstep]

/-- C4 (code evaluated at the failing input): with the covariance entry
`P_(0,0) = -0.0225` the lidar innovation covariance `S = H·P_·Hᵀ + R` is
exactly singular (`det S = 0`), yet `UpdateLidar` computes `S.inverse()`
with no invertibility check, completes, and stores a junk diagnostic
(0 in the exact-arithmetic model; non-finite values in `double`) instead of
detecting and reporting the condition. -/
theorem c4_singular_innovation_not_detected :
    det2 (lidarS c4state) = 0 ∧
    (UpdateLidar c4state c4pkg).NIS_laser = 0 := by
  have hS00 : lidarS c4state 0 0 = 0 := by
    simp [lidarS, matMul, transp, lidH, lidR, c4state, std_laspx, Finset.sum_range_succ]
    norm_num
  have hS01 : lidarS c4state 0 1 = 0 := by
    simp [lidarS, matMul, transp, lidH, lidR, c4state, Finset.sum_range_succ]
  have hS10 : lidarS c4state 1 0 = 0 := by
    simp [lidarS, matMul, transp, lidH, lidR, c4state, Finset.sum_range_succ]
  have hdet : det2 (lidarS c4state) = 0 := by
    rw [det2, hS00, hS01, hS10]; ring
  have hSi : ∀ i j : ℕ, inv2 (lidarS c4state) i j = 0 := by
    intro i j
    simp [inv2, hdet]
  refine ⟨hdet, ?_⟩
  have hcond : c4state.use_laser = true := rfl
  simp only [UpdateLidar, hcond, if_true]
  simp [hSi, Finset.sum_range_succ]

/-- Evaluation of the prediction step at a zero state with identity
covariance over `Δt = 1`: the augmented covariance is the 7×7 identity, the
Cholesky factor is the identity, the sigma points perturb one augmented
coordinate each by `±√3`, and the recombined covariance entry `(2,2)`
(the speed variance) equals `1 + std_a_² = 2`. -/
theorem predCov22_of (s : UKFState) (hx : ∀ i, s.x i = 0)
    (hP : ∀ i j, s.P i j = if i = j then (1 : ℝ) else 0) :
    predCov 1 s 2 2 = 2 := by
  have haug : ∀ r c : ℕ, r < 7 → c < 7 → augP s r c = if r = c then 1 else 0 := by
    intro r c hr hc
    simp only [augP, std_a, std_yawdd, hP]
    split_ifs <;> first | rfl | omega | norm_num
  have hL : ∀ j k : ℕ, j < 7 → k < 7 → matrixL s j k = if j = k then 1 else 0 :=
    fun j k hj hk => cholAux_one 7 (augP s) haug j k hj hk
  have hs3 : lambda_ + (n_aug : ℝ) = 3 := by norm_num [lambda_, n_aug]
  have hw0 : weights 0 = -(4 / 3) := by norm_num [weights, lambda_, n_aug]
  have hwi : ∀ i : ℕ, i ≠ 0 → weights i = 1 / 6 := by
    intro i hi
    norm_num [weights, hi, lambda_, n_aug]
  have hxa : ∀ r, augX s r = 0 := by
    intro r
    simp [augX, hx]
  have hprop : ∀ c : ℕ, XsigPredOf 1 s 2 c = XsigAug s 2 c + XsigAug s 5 c := by
    intro c
    simp [XsigPredOf, propagate]
  have hmean : predMean 1 s 2 = 0 := by
    norm_num [predMean, Finset.sum_range_succ, hprop, XsigAug, hxa, hs3, hL, hw0, hwi]
  norm_num [predCov, predDiff, hmean, Finset.sum_range_succ, hprop, XsigAug, hxa,
    hs3, hL, hw0, hwi]

/-- C1 counterexample: `c1state` is initialized with the lidar disabled
(`use_laser_ = false`) and `c1pkg` is a lidar measurement, yet after
`ProcessMeasurement` the covariance entry `P_(2,2)` has changed from 1 to 2:
the dispatcher runs `Prediction(dt)` before `UpdateLidar` ever looks at the
enable flag, so state and covariance are NOT unchanged by the call. -/
theorem c1_counterexample :
    c1state.is_init = true ∧ c1state.use_laser = false ∧
    c1pkg.sensor_type_ = LASER ∧
    (ProcessMeasurement c1state c1pkg).P 2 2 = 2 ∧ c1state.P 2 2 = 1 ∧
    (ProcessMeasurement c1state c1pkg).P 2 2 ≠ c1state.P 2 2 := by
  have h1 : ProcessMeasurement c1state c1pkg =
      { predictedAt c1state c1pkg with NIS_laser := 0 } := by
    simp [ProcessMeasurement, c1state, c1pkg, LASER, RADAR, UpdateLidar,
      predictedAt, Prediction]
  have hdt : deltaT c1state c1pkg = 1 := by
    norm_num [deltaT, c1state, c1pkg]
  have h2 : (ProcessMeasurement c1state c1pkg).P 2 2 =
      predCov 1 { c1state with time_us := c1pkg.timestamp_ } 2 2 := by
    rw [h1]
    show (predictedAt c1state c1pkg).P 2 2 = _
    unfold predictedAt
    rw [hdt]
    rfl
  have h3 : (ProcessMeasurement c1state c1pkg).P 2 2 = 2 := by
    rw [h2, predCov22_of _ (fun i => rfl) (fun i j => rfl)]
  have h4 : c1state.P 2 2 = 1 := by norm_num [c1state]
  refine ⟨rfl, rfl, rfl, h3, h4, ?_⟩
  rw [h3, h4]
  norm_num

/-- C1 amended: when a sensor's enable flag is off and a measurement of that
type arrives after initialization, the corresponding update performs no
state change — that sensor's NIS diagnostic is set to exactly 0 and the
other sensor's diagnostic is untouched — but `ProcessMeasurement` still runs
the prediction step first, so the state vector and covariance matrix after
the call equal the prediction-step output (which in general differs from
their pre-call values, as `c1_counterexample` shows). -/
theorem c1_disabled_sensor_amended (s : UKFState) (m : MeasurementPackage)
    (h : s.is_init = true) :
    (s.use_laser = false → m.sensor_type_ = LASER →
      (ProcessMeasurement s m).x = (predictedAt s m).x ∧
      (ProcessMeasurement s m).P = (predictedAt s m).P ∧
      (ProcessMeasurement s m).NIS_laser = 0 ∧
      (ProcessMeasurement s m).NIS_radar = s.NIS_radar) ∧
    (s.use_radar = false → m.sensor_type_ = RADAR →
      (ProcessMeasurement s m).x = (predictedAt s m).x ∧
      (ProcessMeasurement s m).P = (predictedAt s m).P ∧
      (ProcessMeasurement s m).NIS_radar = 0 ∧
      (ProcessMeasurement s m).NIS_laser = s.NIS_laser) := by
  constructor
  · intro hu hm
    have h1 : ProcessMeasurement s m = UpdateLidar (predictedAt s m) m := by
      simp [ProcessMeasurement, h, hm, LASER, RADAR]
    have h2 : (predictedAt s m).use_laser = false := by
      simp [predictedAt, Prediction, hu]
    rw [h1]
    unfold UpdateLidar
    simp only [h2, Bool.false_eq_true, if_false]
    refine ⟨?_, ?_, ?_, ?_⟩ <;> simp [predictedAt, Prediction]
  · intro hu hm
    have h1 : ProcessMeasurement s m = UpdateRadar (predictedAt s m) m := by
      simp [ProcessMeasurement, h, hm, LASER, RADAR]
    have h2 : (predictedAt s m).use_radar = false := by
      simp [predictedAt, Prediction, hu]
    rw [h1]
    unfold UpdateRadar
    simp only [h2, Bool.false_eq_true, if_false]
    refine ⟨?_, ?_, ?_, ?_⟩ <;> simp [predictedAt, Prediction]

/-- C1 amended witness: the amended theorem applied at the concrete
disabled-lidar state and lidar measurement. -/
theorem c1_disabled_sensor_amended_witness :
    (ProcessMeasurement c1state c1pkg).x = (predictedAt c1state c1pkg).x ∧
    (ProcessMeasurement c1state c1pkg).P = (predictedAt c1state c1pkg).P ∧
    (ProcessMeasurement c1state c1pkg).NIS_laser = 0 ∧
    (ProcessMeasurement c1state c1pkg).NIS_radar = c1state.NIS_radar :=
  (c1_disabled_sensor_amended c1state c1pkg rfl).1 rfl rfl

end UKF
